import Mathlib

/-!
Verification of the jennov-offloader recording discovery and transfer
pipeline, as a shallow embedding of `src/jennov-offloader.py`.

The device, the download transport and the delete transport are modelled as
oracles packaged in a `World`; the observable behaviour of the orchestrator
(which query, download and delete requests it issues, which report lines and
filesystem writes it performs) is captured as a list of `Event`s. Python
exceptions that escape a function are modelled with `Except PyExn`.
-/

namespace Jennov

/-- Result of `datetime.strptime(s, "%Y-%m-%d %H:%M:%S")`, kept as a plain
record of calendar fields. -/
structure Timestamp where
  year : Nat
  month : Nat
  day : Nat
  hour : Nat
  minute : Nat
  second : Nat
deriving DecidableEq

/-- One recording dict built by `parse_query_response`: the five string
attributes of an `items` element plus the parsed `filesize` (Python `int`,
unbounded) and the parsed `start_time`. `item.get` returns `None` for a
missing attribute, hence the `Option String` fields. -/
structure Recording where
  filepath : Option String
  filesize : Int
  record_mode : Option String
  media_type : Option String
  stream_index : Option String
  start_time : Timestamp
deriving DecidableEq

/-- The Python exceptions the parser can raise: `int(None)` / `strptime(None)`
raise `TypeError`; `int("abc")` and a mis-formatted `strptime` argument raise
`ValueError`. (`ET.ParseError` never escapes `parse_query_response`, so it
needs no constructor here.) -/
inductive PyExn where
  | typeError
  | valueError
deriving DecidableEq

/-- The attributes of one `items` element of a well-formed XML response, as
`item.get` sees them (`none` = attribute absent). -/
structure Item where
  filepath : Option String
  filesize : Option String
  record_mode : Option String
  media_type : Option String
  stream_index : Option String
  start_time : Option String
deriving DecidableEq

/-- A raw response body as `ET.fromstring` sees it: either text that fails XML
parsing (`ET.ParseError` is raised), or a well-formed tree collapsed to the
list of its `items` children. -/
inductive RawResponse where
  | malformed
  | wellFormed (items : List Item)
deriving DecidableEq

/-- Outcome of one `session.post`/`session.get`: a `requests.RequestException`
at the connection level, or an HTTP response with a status code and a body. -/
inductive HttpResult where
  | exn
  | resp (status : Nat) (body : RawResponse)

/-- First codepoints of the 66 ranges of Unicode category Nd (each range is
ten consecutive codepoints with decimal values 0-9), per the Unicode
database of CPython 3.11: these are exactly the digits `int()` converts and
that `\d` matches in `_strptime`'s patterns. -/
def ndStarts : List Nat :=
  [0x30, 0x660, 0x6f0, 0x7c0, 0x966, 0x9e6, 0xa66, 0xae6, 0xb66, 0xbe6,
   0xc66, 0xce6, 0xd66, 0xde6, 0xe50, 0xed0, 0xf20, 0x1040, 0x1090, 0x17e0,
   0x1810, 0x1946, 0x19d0, 0x1a80, 0x1a90, 0x1b50, 0x1bb0, 0x1c40, 0x1c50,
   0xa620, 0xa8d0, 0xa900, 0xa9d0, 0xa9f0, 0xaa50, 0xabf0, 0xff10, 0x104a0,
   0x10d30, 0x11066, 0x110f0, 0x11136, 0x111d0, 0x112f0, 0x11450, 0x114d0,
   0x11650, 0x116c0, 0x11730, 0x118e0, 0x11950, 0x11c50, 0x11d50, 0x11da0,
   0x16a60, 0x16ac0, 0x16b50, 0x1d7ce, 0x1d7d8, 0x1d7e2, 0x1d7ec, 0x1d7f6,
   0x1e140, 0x1e2f0, 0x1e950, 0x1fbf0]

/-- Unicode decimal digit value (category Nd), `none` for a non-digit. -/
def ndVal (c : Char) : Option Nat :=
  let n := c.toNat
  (ndStarts.find? (fun s => s ≤ n && n ≤ s + 9)).map (fun s => n - s)

/-- The codepoints `str.isspace` holds of: this is the class `\s` matches in
`_strptime`'s patterns. -/
def strWhitespace : List Nat :=
  [0x9, 0xa, 0xb, 0xc, 0xd, 0x1c, 0x1d, 0x1e, 0x1f, 0x20, 0x85, 0xa0,
   0x1680, 0x2000, 0x2001, 0x2002, 0x2003, 0x2004, 0x2005, 0x2006, 0x2007,
   0x2008, 0x2009, 0x200a, 0x2028, 0x2029, 0x202f, 0x205f, 0x3000]

/-- Whitespace as `\s` in an `str` regex sees it. -/
def isReSpace (c : Char) : Bool := strWhitespace.contains c.toNat

/-- The whitespace `int()` strips around a numeric literal: the `isspace`
set minus the separator controls 0x1C-0x1F (which `int()` rejects). -/
def isIntSpace (c : Char) : Bool :=
  isReSpace c && !(0x1c ≤ c.toNat && c.toNat ≤ 0x1f)

/-- The digit section of an `int()` literal after its first digit: further
digits, with a single underscore allowed only between two digits. Returns
the accumulated value and the first unconsumed characters; `none` when an
underscore is not followed by a digit. -/
def intDigitsRest : List Char → Nat → Option (Nat × List Char)
  | [], acc => some (acc, [])
  | '_' :: cs, acc =>
    match cs with
    | c :: cs2 =>
      match ndVal c with
      | some d => intDigitsRest cs2 (acc * 10 + d)
      | none => none
    | [] => none
  | c :: cs, acc =>
    match ndVal c with
    | some d => intDigitsRest cs (acc * 10 + d)
    | none => some (acc, c :: cs)

/-- `int(s)` over the string's characters: optional surrounding whitespace,
an optional ASCII sign, then Unicode decimal digits with single underscores
between digits; nothing else may remain. -/
def pyIntChars (cs0 : List Char) : Option Int :=
  let cs1 := cs0.dropWhile isIntSpace
  match
    (match cs1 with
     | '-' :: rest => (true, rest)
     | '+' :: rest => (false, rest)
     | _ => (false, cs1) : Bool × List Char)
  with
  | (neg, cs2) =>
    match cs2 with
    | c :: cs3 =>
      match ndVal c with
      | some d =>
        match intDigitsRest cs3 d with
        | some (n, rest) =>
          if rest.dropWhile isIntSpace = [] then
            some (if neg then -(n : Int) else (n : Int))
          else none
        | none => none
      | none => none
    | [] => none

/-- Python `int(x)` on an attribute value: `TypeError` on `None`,
`ValueError` on a string that is not an integer literal. -/
def pyInt : Option String → Except PyExn Int
  | none => .error .typeError
  | some s =>
    match pyIntChars s.data with
    | some n => .ok n
    | none => .error .valueError

/-- Value of an ASCII digit constrained to the class `[lo-hi]`. -/
def asciiDigitIn (c : Char) (lo hi : Nat) : Option Nat :=
  let n := c.toNat
  if 48 + lo ≤ n ∧ n ≤ 48 + hi then some (n - 48) else none

/-- The `%Y` directive: exactly four `\d` characters. -/
def candY : List Char → Option (Nat × List Char)
  | c1 :: c2 :: c3 :: c4 :: rest =>
    match ndVal c1, ndVal c2, ndVal c3, ndVal c4 with
    | some a, some b, some c, some d => some (a * 1000 + b * 100 + c * 10 + d, rest)
    | _, _, _, _ => none
  | _ => none

/-- The `%m` directive `1[0-2]|0[1-9]|[1-9]`: its candidate parses in the
pattern's alternation order, each as (value, unconsumed rest). -/
def candm (cs : List Char) : List (Nat × List Char) :=
  (match cs with
   | '1' :: c :: rest =>
     match asciiDigitIn c 0 2 with
     | some d => [(10 + d, rest)]
     | none => []
   | _ => []) ++
  (match cs with
   | '0' :: c :: rest =>
     match asciiDigitIn c 1 9 with
     | some d => [(d, rest)]
     | none => []
   | _ => []) ++
  (match cs with
   | c :: rest =>
     match asciiDigitIn c 1 9 with
     | some d => [(d, rest)]
     | none => []
   | _ => [])

/-- The `%d` directive `3[0-1]|[1-2]\d|0[1-9]|[1-9]| [1-9]` (the last
alternative: one ASCII space then a nonzero digit). -/
def candd (cs : List Char) : List (Nat × List Char) :=
  (match cs with
   | '3' :: c :: rest =>
     match asciiDigitIn c 0 1 with
     | some d => [(30 + d, rest)]
     | none => []
   | _ => []) ++
  (match cs with
   | c1 :: c2 :: rest =>
     match asciiDigitIn c1 1 2, ndVal c2 with
     | some d1, some d2 => [(d1 * 10 + d2, rest)]
     | _, _ => []
   | _ => []) ++
  (match cs with
   | '0' :: c :: rest =>
     match asciiDigitIn c 1 9 with
     | some d => [(d, rest)]
     | none => []
   | _ => []) ++
  (match cs with
   | c :: rest =>
     match asciiDigitIn c 1 9 with
     | some d => [(d, rest)]
     | none => []
   | _ => []) ++
  (match cs with
   | ' ' :: c :: rest =>
     match asciiDigitIn c 1 9 with
     | some d => [(d, rest)]
     | none => []
   | _ => [])

/-- The `%H` directive `2[0-3]|[0-1]\d|\d`. -/
def candH (cs : List Char) : List (Nat × List Char) :=
  (match cs with
   | '2' :: c :: rest =>
     match asciiDigitIn c 0 3 with
     | some d => [(20 + d, rest)]
     | none => []
   | _ => []) ++
  (match cs with
   | c1 :: c2 :: rest =>
     match asciiDigitIn c1 0 1, ndVal c2 with
     | some d1, some d2 => [(d1 * 10 + d2, rest)]
     | _, _ => []
   | _ => []) ++
  (match cs with
   | c :: rest =>
     match ndVal c with
     | some d => [(d, rest)]
     | none => []
   | _ => [])

/-- The `%M` directive `[0-5]\d|\d`. -/
def candM5 (cs : List Char) : List (Nat × List Char) :=
  (match cs with
   | c1 :: c2 :: rest =>
     match asciiDigitIn c1 0 5, ndVal c2 with
     | some d1, some d2 => [(d1 * 10 + d2, rest)]
     | _, _ => []
   | _ => []) ++
  (match cs with
   | c :: rest =>
     match ndVal c with
     | some d => [(d, rest)]
     | none => []
   | _ => [])

/-- The `%S` directive `6[0-1]|[0-5]\d|\d`. -/
def candS (cs : List Char) : List (Nat × List Char) :=
  (match cs with
   | '6' :: c :: rest =>
     match asciiDigitIn c 0 1 with
     | some d => [(60 + d, rest)]
     | none => []
   | _ => []) ++
  candM5 cs

/-- Ordered-alternation backtracking: try each candidate parse in order and
take the first whose continuation succeeds. -/
def tryCands {α : Type} (cands : List (Nat × List Char))
    (k : Nat → List Char → Option α) : Option α :=
  match cands with
  | [] => none
  | (v, rest) :: more =>
    match k v rest with
    | some r => some r
    | none => tryCands more k

/-- `\s+`: at least one regex-whitespace character, consumed greedily (the
following directive starts with a digit, so greediness never needs to be
undone). -/
def skipWs1 : List Char → Option (List Char)
  | c :: cs => if isReSpace c then some (cs.dropWhile isReSpace) else none
  | [] => none

/-- Match the full `_strptime` regex for the format `"%Y-%m-%d %H:%M:%S"`,
requiring the whole input to be consumed (`unconverted data remains`
otherwise raises). -/
def strptimeMatch (cs : List Char) : Option Timestamp :=
  match candY cs with
  | none => none
  | some (y, cs1) =>
    match cs1 with
    | '-' :: cs2 =>
      tryCands (candm cs2) (fun mo cs3 =>
        match cs3 with
        | '-' :: cs4 =>
          tryCands (candd cs4) (fun da cs5 =>
            match skipWs1 cs5 with
            | none => none
            | some cs6 =>
              tryCands (candH cs6) (fun h cs7 =>
                match cs7 with
                | ':' :: cs8 =>
                  tryCands (candM5 cs8) (fun mi cs9 =>
                    match cs9 with
                    | ':' :: cs10 =>
                      tryCands (candS cs10) (fun se cs11 =>
                        if cs11.isEmpty then some ⟨y, mo, da, h, mi, se⟩
                        else none)
                    | _ => none)
                | _ => none))
        | _ => none)
    | _ => none

/-- Gregorian leap year, as `datetime` checks it. -/
def isLeapYear (y : Nat) : Bool := y % 4 = 0 && (y % 100 != 0 || y % 400 = 0)

/-- Length of a month, as the `datetime` constructor checks it. -/
def daysInMonth (y mo : Nat) : Nat :=
  if mo = 2 then (if isLeapYear y then 29 else 28)
  else if mo = 4 ∨ mo = 6 ∨ mo = 9 ∨ mo = 11 then 30
  else 31

/-- Parse a `"%Y-%m-%d %H:%M:%S"` string into a `Timestamp` the way
`datetime.strptime` does: match `_strptime`'s regex over the whole input,
then validate through the `datetime` constructor (year at least `MINYEAR`
= 1, day within the month's length, second at most 59 even though the
regex admits 60-61); `none` on any failure. -/
def parseTimestamp (s : String) : Option Timestamp :=
  match strptimeMatch s.data with
  | none => none
  | some ts =>
    if 1 ≤ ts.year ∧ ts.day ≤ daysInMonth ts.year ts.month ∧ ts.second ≤ 59 then
      some ts
    else none

/-- `datetime.strptime(x, "%Y-%m-%d %H:%M:%S")`: `TypeError` on `None`,
`ValueError` on a string that does not match the format. -/
def pyStrptime : Option String → Except PyExn Timestamp
  | none => .error .typeError
  | some s =>
    match parseTimestamp s with
    | some ts => .ok ts
    | none => .error .valueError

/-- The body of the `for item in root.findall('items')` loop: build the
recording dict (evaluating `int(item.get('filesize'))` during construction),
then `strptime` the `start_time`. Either step may raise. -/
def parse_item (item : Item) : Except PyExn Recording :=
  match pyInt item.filesize with
  | .error e => .error e
  | .ok size =>
    match pyStrptime item.start_time with
    | .error e => .error e
    | .ok st =>
      .ok { filepath := item.filepath, filesize := size,
            record_mode := item.record_mode, media_type := item.media_type,
            stream_index := item.stream_index, start_time := st }

/-- The whole `for` loop of `parse_query_response`: items in order; the first
raising item aborts the loop and the exception propagates, discarding the
recordings accumulated so far. -/
def parse_items : List Item → Except PyExn (List Recording)
  | [] => .ok []
  | item :: rest =>
    match parse_item item with
    | .error e => .error e
    | .ok r =>
      match parse_items rest with
      | .error e => .error e
      | .ok rs => .ok (r :: rs)

/-- `parse_query_response(response_text)`: `ET.fromstring` failure is caught
(`except ET.ParseError`), logged, and an empty list returned; on a well-formed
tree the item loop runs, and a `TypeError`/`ValueError` from a bad item
attribute is NOT caught here. -/
def parse_query_response : RawResponse → Except PyExn (List Recording)
  | .malformed => .ok []
  | .wellFormed items => parse_items items

/-- `post_query`: POSTs the envelope; `raise_for_status` raises
`requests.HTTPError` exactly for statuses 400-599; any
`requests.RequestException` (connection failure or such a bad status) is
caught, logged, and `[]` is returned. For every other status (including
values of 600 and above) the body is parsed. A parser exception is not a
`RequestException` and propagates. -/
def post_query (r : HttpResult) : Except PyExn (List Recording) :=
  match r with
  | .exn => .ok []
  | .resp status body =>
    if 400 ≤ status ∧ status < 600 then .ok []
    else parse_query_response body

instance {ε α : Type} [DecidableEq ε] [DecidableEq α] : DecidableEq (Except ε α) := fun x y =>
  match x, y with
  | .ok a, .ok b =>
    if h : a = b then isTrue (by rw [h]) else isFalse (fun hc => h (Except.ok.inj hc))
  | .error a, .error b =>
    if h : a = b then isTrue (by rw [h]) else isFalse (fun hc => h (Except.error.inj hc))
  | .ok _, .error _ => isFalse (fun hc => Except.noConfusion hc)
  | .error _, .ok _ => isFalse (fun hc => Except.noConfusion hc)

/-- `max_skip_count = 24 * 60`: the pagination safety ceiling. -/
def max_skip_count : Nat := 24 * 60

/-- The device as the query loop sees it within one query window: the
response to the POST carrying a given `skipCount` (the window's `start_time`
and `end_time` are fixed for the whole loop and are absorbed into the
oracle). -/
def Device : Type := Nat → HttpResult

/-- The `while skip_count <= max_skip_count` loop of `query_recordings`.
Returns the list of `skipCount` values actually carried by successive query
requests, paired with the Python outcome: the accumulated recordings, or the
parser exception that aborted the loop (discarding `recordings`).
Each iteration appends the page to `recordings` and advances `skip_count` by
the page length; an empty page ends the loop. -/
def query_loop (device : Device) (skip_count : Nat) (recordings : List Recording) :
    List Nat × Except PyExn (List Recording) :=
  if _h : skip_count ≤ max_skip_count then
    match post_query (device skip_count) with
    | .error e => ([skip_count], .error e)
    | .ok [] => ([skip_count], .ok recordings)
    | .ok (r :: rs) =>
      let next := query_loop device (skip_count + (r :: rs).length) (recordings ++ (r :: rs))
      (skip_count :: next.1, next.2)
  else ([], .ok recordings)
termination_by max_skip_count + 1 - skip_count
decreasing_by simp [List.length_cons]; omega

/-- `query_recordings(target_date, camera_url)`: cursor starts at 0, the
accumulator empty. -/
def query_recordings (device : Device) : List Nat × Except PyExn (List Recording) :=
  query_loop device 0 []

/-- Number of records the device returns for the page at cursor `c` (0 when
that page errors; an erroring page issues no further request, so the value is
never consumed in that case). -/
def pageLen (device : Device) (c : Nat) : Nat :=
  match post_query (device c) with
  | .ok l => l.length
  | .error _ => 0

/-- A cursor trace in which every successive cursor equals the previous one
advanced by exactly the record count of the page returned at the previous
cursor. -/
def cursorChain (device : Device) : List Nat → Prop
  | [] => True
  | [_] => True
  | a :: b :: rest => b = a + pageLen device a ∧ cursorChain device (b :: rest)

/-- A transport failure: a connection-level `requests.RequestException`, or a
response whose status makes `raise_for_status` raise (exactly 400-599). -/
def transportFailure : HttpResult → Prop
  | .exn => True
  | .resp status _ => 400 ≤ status ∧ status < 600

/-- A camera entry of the configuration registry: its section name and its
`id` (used for the storage sub-directory). -/
structure Camera where
  name : String
  id : String
deriving DecidableEq

/-- The three mode flags of the command line (`--query-only` alias `-q`,
`--download-only`, `--delete-only`). -/
structure Args where
  query_only : Bool
  download_only : Bool
  delete_only : Bool
deriving DecidableEq

/-- `downloadAndDelete` mode: none of the three flags set. -/
def dadArgs : Args := ⟨false, false, false⟩

/-- `queryOnly` mode. -/
def queryOnlyArgs : Args := ⟨true, false, false⟩

/-- `downloadOnly` mode. -/
def downloadOnlyArgs : Args := ⟨false, true, false⟩

/-- `deleteOnly` mode. -/
def deleteOnlyArgs : Args := ⟨false, false, true⟩

/-- Both `--download-only` and `--delete-only` set at once (outside the
spec's four-value mode enum). -/
def bothOnlyArgs : Args := ⟨false, true, true⟩

/-- The oracles for one camera: the query device, whether the streamed GET of
a given recording succeeds, and the outcome of the delete POST (`none` = a
`requests.RequestException`, `some code` = an HTTP response with that
status). -/
structure World where
  device : Device
  downloadOk : Recording → Bool
  deleteResult : Recording → Option Nat

/-- Observable actions of the orchestrator. -/
inductive Event where
  | queryReq (skipCount : Nat)
  | mkdirReq (path : String)
  | downloadReq (rec : Recording)
  | fsWrite (path : String)
  | deleteReq (rec : Recording)
  | reportLine (camera : String) (rec : Recording)
deriving DecidableEq

/-- Left-pad a decimal rendering with zeros to width `w` (`strftime` zero
padding). -/
def pad (w : Nat) (n : Nat) : String :=
  let s := toString n
  if s.length < w then String.mk (List.replicate (w - s.length) '0') ++ s else s

/-- `start_time.strftime('%Y%m%d')`. -/
def fmtDate (t : Timestamp) : String :=
  pad 4 t.year ++ pad 2 t.month ++ pad 2 t.day

/-- `start_time.strftime('%H%M%S')`. -/
def fmtTime (t : Timestamp) : String :=
  pad 2 t.hour ++ pad 2 t.minute ++ pad 2 t.second

/-- The local path `download_recording` composes:
`os.path.join(download_dir, camera_id)` joined with
`"{camera_name}-{YYYYMMDD}-{HHMMSS}.mp4"` (`os.path.join` written as
`"/"`-concatenation). -/
def download_local_path (download_dir camera_id camera_name : String)
    (rec : Recording) : String :=
  download_dir ++ "/" ++ camera_id ++ "/" ++ camera_name ++ "-" ++
    fmtDate rec.start_time ++ "-" ++ fmtTime rec.start_time ++ ".mp4"

/-- A flat model of the local filesystem: path to file contents. -/
def FileSystem : Type := String → Option (List Nat)

/-- `open(local_path, 'wb')` + writing the streamed chunks: sets the file at
`path` to `content`, replacing whatever was there. -/
def fsWriteFile (fs : FileSystem) (path : String) (content : List Nat) : FileSystem :=
  fun p => if p = path then some content else fs p

/-- `download_recording(recording, camera_url, camera_name)`: makes the
camera sub-directory, GETs the playback URL and streams it to the composed
local path. Any `requests.RequestException` (connection failure or
`raise_for_status`) is caught and `False` returned; the oracle
`w.downloadOk` decides which case occurs. Returns the Python result paired
with the events issued. -/
def download_recording (w : World) (download_dir : String) (cam : Camera)
    (rec : Recording) : Bool × List Event :=
  let dir := download_dir ++ "/" ++ cam.id
  let path := download_local_path download_dir cam.id cam.name rec
  if w.downloadOk rec then
    (true, [.mkdirReq dir, .downloadReq rec, .fsWrite path])
  else
    (false, [.mkdirReq dir, .downloadReq rec])

/-- `delete_recording(recording, camera_url, camera_name)`: POSTs the
envelope to `setDeleteFile` once; reports `True` exactly when the response
status code is 202, `False` on every other status and on a caught
`RequestException`. -/
def delete_recording (w : World) (rec : Recording) : Bool × List Event :=
  match w.deleteResult rec with
  | none => (false, [.deleteReq rec])
  | some code => (code == 202, [.deleteReq rec])

/-- The body of the `for recording in recordings` loop of `process_camera`:
`query_only` reports and continues; otherwise download unless `delete_only`,
and on download failure log and `continue` (skipping the delete); then delete
unless `download_only`, ignoring the delete result. -/
def process_recording (args : Args) (w : World) (download_dir : String)
    (cam : Camera) (rec : Recording) : List Event :=
  if args.query_only then
    [.reportLine cam.name rec]
  else
    if !args.delete_only then
      let dl := download_recording w download_dir cam rec
      if !dl.1 then dl.2
      else dl.2 ++ (if !args.download_only then (delete_recording w rec).2 else [])
    else
      if !args.download_only then (delete_recording w rec).2 else []

/-- `process_camera(camera_name, target_date)`: query the recordings (a
parser exception propagates out of this function), return early on an empty
result, otherwise run the per-recording loop. The returned events are the
query requests followed by the per-recording events. -/
def process_camera (args : Args) (w : World) (download_dir : String)
    (cam : Camera) : Except PyExn (List Event) :=
  match query_recordings w.device with
  | (_, .error e) => .error e
  | (cursors, .ok recs) =>
    if recs.isEmpty then .ok (cursors.map Event.queryReq)
    else .ok (cursors.map Event.queryReq ++
              recs.flatMap (process_recording args w download_dir cam))

/-- The per-camera loop of `start`: `process_camera` inside
`try ... except Exception`, so a failing camera is logged and skipped
(`none`) and the loop continues with the remaining cameras. -/
def start (args : Args) (wf : Camera → World) (download_dir : String)
    (cams : List Camera) : List (Camera × Option (List Event)) :=
  cams.map fun cam =>
    match process_camera args (wf cam) download_dir cam with
    | .error _ => (cam, none)
    | .ok evs => (cam, some evs)

/-! Concrete fixtures used by the witness theorems. -/

/-- Noon, 2025-01-01. -/
def tsW : Timestamp := ⟨2025, 1, 1, 12, 0, 0⟩

/-- A concrete recording. -/
def recW : Recording := ⟨some "/sd/rec001.mp4", 1024, some "1", some "3", some "0", tsW⟩

/-- A well-formed item that parses to `recW`. -/
def itemGood : Item :=
  ⟨some "/sd/rec001.mp4", some "1024", some "1", some "3", some "0",
   some "2025-01-01 12:00:00"⟩

/-- An item whose `filesize` attribute is not an integer literal. -/
def itemBadSize : Item :=
  ⟨some "/sd/rec002.mp4", some "notanint", some "1", some "3", some "0",
   some "2025-01-01 12:01:00"⟩

/-- A device that always answers 200 with an empty well-formed page. -/
def deviceEmpty : Device := fun _ => .resp 200 (.wellFormed [])

/-- A device that answers one good page at cursor 0 and then fails at the
connection level. -/
def deviceFailAt1 : Device :=
  fun c => if c = 0 then .resp 200 (.wellFormed [itemGood]) else .exn

/-- A device whose first page contains an item with a bad `filesize`. -/
def deviceBad0 : Device := fun _ => .resp 200 (.wellFormed [itemBadSize])

/-- A world where every download succeeds and every delete is accepted. -/
def world1 : World := ⟨deviceEmpty, fun _ => true, fun _ => some 202⟩

/-- A world where every download fails. -/
def worldFail : World := ⟨deviceEmpty, fun _ => false, fun _ => some 202⟩

/-- A world whose delete endpoint answers 200 (not the accepted status). -/
def world200 : World := ⟨deviceEmpty, fun _ => true, fun _ => some 200⟩

/-- A world whose delete endpoint answers 202. -/
def world202 : World := ⟨deviceEmpty, fun _ => true, fun _ => some 202⟩

/-- A world whose device returns a page with a bad item. -/
def worldBad : World := ⟨deviceBad0, fun _ => true, fun _ => some 202⟩

/-- A concrete camera. -/
def camW : Camera := ⟨"cam1", "42"⟩

/-- An item whose `filesize` or `start_time` attribute makes the parser
raise: missing or non-integer `filesize`, or missing or mis-formatted
`start_time`. -/
def badItem (it : Item) : Prop :=
  (∃ e, pyInt it.filesize = .error e) ∨ (∃ e, pyStrptime it.start_time = .error e)

/-- An item whose `filesize` parses as an integer and whose `start_time`
matches the timestamp format. -/
def goodItem (it : Item) : Prop :=
  (∃ n, pyInt it.filesize = .ok n) ∧ (∃ t, pyStrptime it.start_time = .ok t)

/-! Helper lemmas about the pagination loop. -/

lemma query_loop_nil (device : Device) (c : Nat) (acc : List Recording)
    (h : max_skip_count < c) : query_loop device c acc = ([], .ok acc) := by
  rw [query_loop, dif_neg (by omega)]

lemma query_loop_error (device : Device) (c : Nat) (acc : List Recording) (e : PyExn)
    (hc : c ≤ max_skip_count) (he : post_query (device c) = .error e) :
    query_loop device c acc = ([c], .error e) := by
  rw [query_loop, dif_pos hc, he]

lemma query_loop_empty (device : Device) (c : Nat) (acc : List Recording)
    (hc : c ≤ max_skip_count) (he : post_query (device c) = .ok []) :
    query_loop device c acc = ([c], .ok acc) := by
  rw [query_loop, dif_pos hc, he]

lemma query_loop_cons (device : Device) (c : Nat) (acc : List Recording)
    (r : Recording) (rs : List Recording)
    (hc : c ≤ max_skip_count) (he : post_query (device c) = .ok (r :: rs)) :
    query_loop device c acc =
      ((c :: (query_loop device (c + (r :: rs).length) (acc ++ r :: rs)).1),
       (query_loop device (c + (r :: rs).length) (acc ++ r :: rs)).2) := by
  rw [query_loop, dif_pos hc, he]

lemma query_loop_head (device : Device) (c : Nat) (acc : List Recording)
    (hc : c ≤ max_skip_count) : (query_loop device c acc).1.head? = some c := by
  rcases hp : post_query (device c) with e | l
  · rw [query_loop_error device c acc e hc hp]
    rfl
  · cases l with
    | nil =>
      rw [query_loop_empty device c acc hc hp]
      rfl
    | cons r rs =>
      rw [query_loop_cons device c acc r rs hc hp]
      rfl

lemma query_loop_length : ∀ fuel c : Nat, max_skip_count + 1 - c ≤ fuel →
    ∀ (device : Device) (acc : List Recording),
      (query_loop device c acc).1.length ≤ max_skip_count + 1 - c := by
  intro fuel
  induction fuel with
  | zero =>
    intro c h device acc
    rw [query_loop_nil device c acc (by omega)]
    simp
  | succ n ih =>
    intro c h device acc
    by_cases hc : c ≤ max_skip_count
    · rcases hp : post_query (device c) with e | l
      · rw [query_loop_error device c acc e hc hp]
        simp
        omega
      · cases l with
        | nil =>
          rw [query_loop_empty device c acc hc hp]
          simp
          omega
        | cons r rs =>
          rw [query_loop_cons device c acc r rs hc hp]
          have := ih (c + (r :: rs).length) (by simp; omega) device (acc ++ r :: rs)
          simp only [List.length_cons] at this ⊢
          omega
    · rw [query_loop_nil device c acc (by omega)]
      simp

lemma query_loop_chain : ∀ fuel c : Nat, max_skip_count + 1 - c ≤ fuel →
    ∀ (device : Device) (acc : List Recording),
      cursorChain device (query_loop device c acc).1 := by
  intro fuel
  induction fuel with
  | zero =>
    intro c h device acc
    rw [query_loop_nil device c acc (by omega)]
    exact trivial
  | succ n ih =>
    intro c h device acc
    by_cases hc : c ≤ max_skip_count
    · rcases hp : post_query (device c) with e | l
      · rw [query_loop_error device c acc e hc hp]
        exact trivial
      · cases l with
        | nil =>
          rw [query_loop_empty device c acc hc hp]
          exact trivial
        | cons r rs =>
          rw [query_loop_cons device c acc r rs hc hp]
          have hrec := ih (c + (r :: rs).length) (by simp; omega) device (acc ++ r :: rs)
          rcases hnext : (query_loop device (c + (r :: rs).length) (acc ++ r :: rs)).1 with
            _ | ⟨b, rest⟩
          · exact trivial
          · by_cases hc2 : c + (r :: rs).length ≤ max_skip_count
            · have hhead := query_loop_head device (c + (r :: rs).length) (acc ++ r :: rs) hc2
              rw [hnext] at hhead
              simp at hhead
              rw [hnext] at hrec
              refine ⟨?_, hrec⟩
              rw [hhead]
              simp [pageLen, hp]
            · rw [query_loop_nil device (c + (r :: rs).length) (acc ++ r :: rs) (by omega)]
                at hnext
              simp at hnext
    · rw [query_loop_nil device c acc (by omega)]
      exact trivial

lemma cursorChain_le (device : Device) :
    ∀ l : List Nat, cursorChain device l → List.Chain' (fun a b => a ≤ b) l := by
  intro l
  induction l with
  | nil => intro _; simp
  | cons a t ih =>
    cases t with
    | nil => intro _; simp
    | cons b rest =>
      intro h
      obtain ⟨hb, hrest⟩ := h
      rw [List.chain'_cons]
      exact ⟨by omega, ih hrest⟩

/-- C3: a transport failure (connection error, or a 400-599 status — exactly
the statuses `raise_for_status` raises for) while fetching any page is
recovered inside `post_query` (which returns an empty page, never an
exception), and makes the pagination loop stop and return exactly the
recordings accumulated from the prior pages — a partial result, not a
propagated failure. -/
theorem C3_transport_failure_recovered (device : Device) (c : Nat)
    (acc : List Recording) :
    (∀ r : HttpResult, transportFailure r → post_query r = .ok []) ∧
    (c ≤ max_skip_count → transportFailure (device c) →
      query_loop device c acc = ([c], .ok acc)) := by
  constructor
  · intro r h
    cases r with
    | exn => rfl
    | resp status body =>
      simp only [transportFailure] at h
      simp [post_query, h]
  · intro hc h
    have hpost : post_query (device c) = .ok [] := by
      cases hr : device c with
      | exn => rfl
      | resp status body =>
        rw [hr] at h
        simp only [transportFailure] at h
        simp [post_query, h]
    exact query_loop_empty device c acc hc hpost

/-- C3 witness: at cursor 1, after one good page accumulated `[recW]`, the
device fails at the connection level; the loop returns the partial result. -/
theorem C3_witness :
    query_loop deviceFailAt1 1 [recW] = ([1], Except.ok [recW]) ∧
    post_query HttpResult.exn = .ok [] :=
  ⟨(C3_transport_failure_recovered deviceFailAt1 1 [recW]).2 (by decide)
      (by simp [deviceFailAt1, transportFailure]),
   (C3_transport_failure_recovered deviceFailAt1 0 []).1 .exn trivial⟩

/-- C4: within one query window the cursor starts at 0, each successive
request's cursor equals the previous cursor advanced by exactly the record
count the previous page returned (`cursorChain`), and the issued cursor
values are monotonically non-decreasing. -/
theorem C4_cursor_running_sum (device : Device) :
    (query_recordings device).1.head? = some 0 ∧
    cursorChain device (query_recordings device).1 ∧
    List.Chain' (fun a b => a ≤ b) (query_recordings device).1 := by
  have hchain : cursorChain device (query_recordings device).1 :=
    query_loop_chain (max_skip_count + 1) 0 (by omega) device []
  exact ⟨query_loop_head device 0 [] (Nat.zero_le _), hchain,
    cursorChain_le device _ hchain⟩

/-- C5: pagination always terminates (`query_loop` is a total function);
the number of query requests of one window is bounded by
`max_skip_count + 1 = 1441`, the loop stops on an empty page, and it stops
as soon as the cursor exceeds `max_skip_count = 1440`. -/
theorem C5_pagination_bounded :
    (∀ device : Device, (query_recordings device).1.length ≤ max_skip_count + 1) ∧
    (∀ (device : Device) (c : Nat) (acc : List Recording),
      c ≤ max_skip_count → post_query (device c) = .ok [] →
      query_loop device c acc = ([c], .ok acc)) ∧
    (∀ (device : Device) (c : Nat) (acc : List Recording),
      max_skip_count < c → query_loop device c acc = ([], .ok acc)) := by
  refine ⟨?_, query_loop_empty, query_loop_nil⟩
  intro device
  have := query_loop_length (max_skip_count + 1) 0 (by omega) device []
  simpa using this

/-- C5 witness: a device whose first page is empty makes the loop stop after
a single query request. -/
theorem C5_witness : query_loop deviceEmpty 0 [] = ([0], Except.ok []) :=
  C5_pagination_bounded.2.1 deviceEmpty 0 [] (by decide) rfl

/-! Helper lemmas about the parser. -/

lemma parse_items_ok : ∀ items : List Item, (∀ it ∈ items, goodItem it) →
    ∃ l, parse_items items = .ok l := by
  intro items
  induction items with
  | nil => intro _; exact ⟨[], rfl⟩
  | cons it rest ih =>
    intro h
    obtain ⟨⟨n, hn⟩, t, ht⟩ := h it (List.mem_cons_self it rest)
    obtain ⟨l, hl⟩ := ih (fun x hx => h x (List.mem_cons_of_mem it hx))
    refine ⟨{ filepath := it.filepath, filesize := n, record_mode := it.record_mode,
              media_type := it.media_type, stream_index := it.stream_index,
              start_time := t } :: l, ?_⟩
    simp [parse_items, parse_item, hn, ht, hl, Except.bind]

lemma parse_items_error : ∀ items : List Item, (∃ it ∈ items, badItem it) →
    ∃ e, parse_items items = .error e := by
  intro items
  induction items with
  | nil =>
    rintro ⟨it, h, _⟩
    cases h
  | cons a rest ih =>
    rintro ⟨it, hmem, hbad⟩
    rcases List.mem_cons.mp hmem with heq | hmem2
    · subst heq
      rcases hbad with ⟨e, he⟩ | ⟨e, he⟩
      · exact ⟨e, by simp [parse_items, parse_item, he, Except.bind]⟩
      · rcases hs : pyInt it.filesize with e2 | n
        · exact ⟨e2, by simp [parse_items, parse_item, hs, Except.bind]⟩
        · exact ⟨e, by simp [parse_items, parse_item, hs, he, Except.bind]⟩
    · rcases ha1 : pyInt a.filesize with e2 | n
      · exact ⟨e2, by simp [parse_items, parse_item, ha1, Except.bind]⟩
      · rcases ha2 : pyStrptime a.start_time with e2 | t
        · exact ⟨e2, by simp [parse_items, parse_item, ha1, ha2, Except.bind]⟩
        · obtain ⟨e, he⟩ := ih ⟨it, hmem2, hbad⟩
          exact ⟨e, by simp [parse_items, parse_item, ha1, ha2, he, Except.bind]⟩

/-- C2 counterexample: a well-formed response body one of whose items
carries a non-integer `filesize` makes `parse_query_response` raise a
`ValueError` to its caller, so the parser does NOT return a sequence for
every raw response text. -/
theorem C2_counterexample :
    parse_query_response (.wellFormed [itemBadSize]) = .error .valueError := by
  decide

/-- C2 (amended): when the response body is not well-formed structured data,
`parse_query_response` logs and returns the empty sequence without raising;
and it returns a (possibly empty) sequence of recordings without raising
whenever every item element of a well-formed response carries an integer
`filesize` and a well-formatted `start_time`. (A well-formed response with a
missing/non-integer `filesize` or missing/ill-formatted `start_time` instead
raises — see the counterexample.) -/
theorem C2_parse_contract_amended :
    parse_query_response .malformed = .ok [] ∧
    ∀ items : List Item, (∀ it ∈ items, goodItem it) →
      ∃ l, parse_query_response (.wellFormed items) = .ok l := by
  exact ⟨rfl, fun items h => parse_items_ok items h⟩

/-- C2 witness: a well-formed page whose single item is good parses to a
sequence. -/
theorem C2_witness : ∃ l, parse_query_response (.wellFormed [itemGood]) = .ok l :=
  C2_parse_contract_amended.2 [itemGood]
    (by
      intro it hit
      simp at hit
      subst hit
      exact ⟨⟨1024, by decide⟩, ⟨tsW, by decide⟩⟩)

/-- C9: an item element with a missing or non-integer `filesize`, or a
missing or ill-formatted `start_time`, in an otherwise well-formed response
makes the parser raise; the exception escapes the pagination loop (the
recordings accumulated from prior pages are discarded: the loop's outcome is
the error, not a partial result), escapes `process_camera` when such a page
is the first one fetched, and is caught only by the per-camera loop of
`start`, which skips that camera and continues with the remaining ones. -/
theorem C9_bad_item_aborts_camera :
    (∀ items : List Item, (∃ it ∈ items, badItem it) →
      ∃ e, parse_query_response (.wellFormed items) = .error e) ∧
    (∀ (device : Device) (c : Nat) (acc : List Recording) (e : PyExn),
      c ≤ max_skip_count → post_query (device c) = .error e →
      query_loop device c acc = ([c], .error e)) ∧
    (∀ (args : Args) (w : World) (dd : String) (cam : Camera) (e : PyExn),
      post_query (w.device 0) = .error e →
      process_camera args w dd cam = .error e) ∧
    (∀ (args : Args) (wf : Camera → World) (dd : String) (cam : Camera)
      (cams : List Camera) (e : PyExn),
      process_camera args (wf cam) dd cam = .error e →
      start args wf dd (cam :: cams) = (cam, none) :: start args wf dd cams) := by
  refine ⟨?_, query_loop_error, ?_, ?_⟩
  · intro items h
    exact parse_items_error items h
  · intro args w dd cam e h
    have hq : query_loop w.device 0 [] = ([0], .error e) :=
      query_loop_error w.device 0 [] e (Nat.zero_le _) h
    simp [process_camera, query_recordings, hq]
  · intro args wf dd cam cams e h
    simp [start, h]

/-- C9 witness: with a good page at cursor 0 already accumulated, a bad page
aborts with the accumulated recordings discarded; a camera whose first page
has a bad item fails as a whole and is skipped by `start`, which continues. -/
theorem C9_witness :
    (∃ e, parse_query_response (.wellFormed [itemGood, itemBadSize]) = .error e) ∧
    query_loop deviceBad0 1 [recW] = ([1], Except.error PyExn.valueError) ∧
    process_camera dadArgs worldBad "./downloads" camW = .error .valueError ∧
    start dadArgs (fun _ => worldBad) "./downloads" [camW] = [(camW, none)] := by
  have hpc : process_camera dadArgs worldBad "./downloads" camW = .error .valueError :=
    C9_bad_item_aborts_camera.2.2.1 dadArgs worldBad "./downloads" camW .valueError
      (by decide)
  refine ⟨?_, ?_, hpc, ?_⟩
  · exact C9_bad_item_aborts_camera.1 [itemGood, itemBadSize]
      ⟨itemBadSize, by simp, Or.inl ⟨.valueError, by decide⟩⟩
  · exact C9_bad_item_aborts_camera.2.1 deviceBad0 1 [recW] .valueError (by decide)
      (by decide)
  · rw [C9_bad_item_aborts_camera.2.2.2 dadArgs (fun _ => worldBad) "./downloads" camW []
      .valueError hpc]
    rfl

/-! Helper lemmas about the orchestrator. -/

lemma delete_recording_events (w : World) (rec : Recording) :
    (delete_recording w rec).2 = [.deleteReq rec] := by
  cases h : w.deleteResult rec <;> simp [delete_recording, h]

lemma process_recording_dad_ok (w : World) (dd : String) (cam : Camera)
    (r : Recording) (h : w.downloadOk r = true) :
    process_recording dadArgs w dd cam r =
      [.mkdirReq (dd ++ "/" ++ cam.id), .downloadReq r,
       .fsWrite (download_local_path dd cam.id cam.name r), .deleteReq r] := by
  simp [process_recording, dadArgs, download_recording, h, delete_recording_events]

lemma process_recording_dad_fail (w : World) (dd : String) (cam : Camera)
    (r : Recording) (h : w.downloadOk r = false) :
    process_recording dadArgs w dd cam r =
      [.mkdirReq (dd ++ "/" ++ cam.id), .downloadReq r] := by
  simp [process_recording, dadArgs, download_recording, h]

lemma process_recording_dad_delete_mem (w : World) (dd : String) (cam : Camera)
    (r rec : Recording)
    (hmem : Event.deleteReq rec ∈ process_recording dadArgs w dd cam r) :
    rec = r ∧ w.downloadOk r = true := by
  by_cases hdl : w.downloadOk r
  · rw [process_recording_dad_ok w dd cam r hdl] at hmem
    simp at hmem
    exact ⟨hmem, hdl⟩
  · rw [process_recording_dad_fail w dd cam r (by simpa using hdl)] at hmem
    simp at hmem

/-- C1: in download-and-delete mode a delete request is issued for a
recording only when its download reported success; when the download fails
the recording's events stop at the failed download attempt (no delete), and
the per-recording loop continues structurally with the remaining
recordings. -/
theorem C1_delete_requires_download (w : World) (dd : String) (cam : Camera) :
    (∀ (recs : List Recording) (rec : Recording),
      Event.deleteReq rec ∈ recs.flatMap (process_recording dadArgs w dd cam) →
      w.downloadOk rec = true) ∧
    (∀ rec : Recording, w.downloadOk rec = false →
      process_recording dadArgs w dd cam rec =
        [.mkdirReq (dd ++ "/" ++ cam.id), .downloadReq rec]) ∧
    (∀ (r : Recording) (rs : List Recording),
      (r :: rs).flatMap (process_recording dadArgs w dd cam) =
        process_recording dadArgs w dd cam r ++
          rs.flatMap (process_recording dadArgs w dd cam)) := by
  refine ⟨?_, process_recording_dad_fail w dd cam, ?_⟩
  · intro recs rec hmem
    obtain ⟨r, _, hr⟩ := List.mem_flatMap.mp hmem
    obtain ⟨heq, hok⟩ := process_recording_dad_delete_mem w dd cam r rec hr
    rw [heq]
    exact hok
  · intro r rs
    simp [List.flatMap_cons]

/-- C1 witness: with every download succeeding the delete request for `recW`
is in the event stream and the theorem yields its download success; with
every download failing the events for `recW` stop at the download attempt. -/
theorem C1_witness :
    world1.downloadOk recW = true ∧
    process_recording dadArgs worldFail "./downloads" camW recW =
      [.mkdirReq ("./downloads" ++ "/" ++ camW.id), .downloadReq recW] :=
  ⟨(C1_delete_requires_download world1 "./downloads" camW).1 [recW] recW (by decide),
   (C1_delete_requires_download worldFail "./downloads" camW).2.1 recW rfl⟩

/-- C6: `delete_recording` reports success if and only if the HTTP response
to the delete request carries status code 202; every other status makes it
report failure, a connection-level exception reports failure as well, and
exactly one delete request is issued (no retry). -/
theorem C6_delete_success_iff_202 (w : World) (rec : Recording) :
    (∀ code : Nat, w.deleteResult rec = some code →
      ((delete_recording w rec).1 = true ↔ code = 202)) ∧
    (delete_recording w rec).2 = [.deleteReq rec] ∧
    (w.deleteResult rec = none → (delete_recording w rec).1 = false) := by
  refine ⟨?_, delete_recording_events w rec, ?_⟩
  · intro code h
    simp [delete_recording, h]
  · intro h
    simp [delete_recording, h]

/-- C6 witness: status 200 is rejected, status 202 is accepted. -/
theorem C6_witness :
    ((delete_recording world200 recW).1 = true ↔ (200 : Nat) = 202) ∧
    ((delete_recording world202 recW).1 = true ↔ (202 : Nat) = 202) :=
  ⟨(C6_delete_success_iff_202 world200 recW).1 200 rfl,
   (C6_delete_success_iff_202 world202 recW).1 202 rfl⟩

lemma process_recording_deleteOnly (w : World) (dd : String) (cam : Camera)
    (r : Recording) :
    process_recording deleteOnlyArgs w dd cam r = [.deleteReq r] := by
  simp [process_recording, deleteOnlyArgs, delete_recording_events]

lemma process_recording_downloadOnly (w : World) (dd : String) (cam : Camera)
    (r : Recording) :
    process_recording downloadOnlyArgs w dd cam r =
      (download_recording w dd cam r).2 := by
  by_cases h : w.downloadOk r <;>
    simp [process_recording, downloadOnlyArgs, download_recording, h]

/-- C7: mode frame conditions — in delete-only mode no download request is
issued for any recording, in download-only mode no delete request is issued
for any recording, and in query-only mode the per-recording processing emits
exactly one report line per recording (no download, delete, or filesystem
event). -/
theorem C7_mode_frame (w : World) (dd : String) (cam : Camera)
    (recs : List Recording) :
    (∀ rec : Recording,
      Event.downloadReq rec ∉ recs.flatMap (process_recording deleteOnlyArgs w dd cam)) ∧
    (∀ rec : Recording,
      Event.deleteReq rec ∉ recs.flatMap (process_recording downloadOnlyArgs w dd cam)) ∧
    (recs.flatMap (process_recording queryOnlyArgs w dd cam) =
      recs.map (Event.reportLine cam.name)) := by
  refine ⟨?_, ?_, ?_⟩
  · intro rec hmem
    obtain ⟨r, _, hr⟩ := List.mem_flatMap.mp hmem
    rw [process_recording_deleteOnly w dd cam r] at hr
    simp at hr
  · intro rec hmem
    obtain ⟨r, _, hr⟩ := List.mem_flatMap.mp hmem
    rw [process_recording_downloadOnly w dd cam r] at hr
    by_cases h : w.downloadOk r <;>
      simp [download_recording, h] at hr
  · induction recs with
    | nil => rfl
    | cons r rs ih =>
      simp only [List.flatMap_cons, List.map_cons, ih]
      simp [process_recording, queryOnlyArgs]

/-- C7 witness: in query-only mode the events of a one-recording sequence
are exactly its report line, and no download request for `recW` appears in
delete-only mode there. -/
theorem C7_witness :
    [recW].flatMap (process_recording queryOnlyArgs world1 "./downloads" camW) =
      [recW].map (Event.reportLine camW.name) ∧
    Event.downloadReq recW ∉
      [recW].flatMap (process_recording deleteOnlyArgs world1 "./downloads" camW) :=
  ⟨(C7_mode_frame world1 "./downloads" camW [recW]).2.2,
   (C7_mode_frame world1 "./downloads" camW [recW]).1 recW⟩

/-- C8: the local path composed by the download operation follows the layout
`downloadRoot/cameraId/cameraName-YYYYMMDD-HHMMSS.mp4`, depends only on the
download root, the camera id and name, and the recording's start time (the
remaining recording fields are irrelevant), and re-writing the same path is
idempotent on the filesystem: the file is overwritten, no duplicate path
appears. -/
theorem C8_path_deterministic (dd cid cname : String)
    (fp1 fp2 : Option String) (sz1 sz2 : Int)
    (rm1 rm2 mt1 mt2 si1 si2 : Option String) (st : Timestamp)
    (fs : FileSystem) (content : List Nat) :
    download_local_path dd cid cname ⟨fp1, sz1, rm1, mt1, si1, st⟩ =
      dd ++ "/" ++ cid ++ "/" ++ cname ++ "-" ++ fmtDate st ++ "-" ++
        fmtTime st ++ ".mp4" ∧
    download_local_path dd cid cname ⟨fp1, sz1, rm1, mt1, si1, st⟩ =
      download_local_path dd cid cname ⟨fp2, sz2, rm2, mt2, si2, st⟩ ∧
    fsWriteFile
        (fsWriteFile fs (download_local_path dd cid cname ⟨fp1, sz1, rm1, mt1, si1, st⟩)
          content)
        (download_local_path dd cid cname ⟨fp1, sz1, rm1, mt1, si1, st⟩) content =
      fsWriteFile fs (download_local_path dd cid cname ⟨fp1, sz1, rm1, mt1, si1, st⟩)
        content := by
  refine ⟨rfl, rfl, ?_⟩
  funext p
  by_cases h : p = download_local_path dd cid cname ⟨fp1, sz1, rm1, mt1, si1, st⟩ <;>
    simp [fsWriteFile, h]

/-- C10: with both `--download-only` and `--delete-only` set, the
per-recording processing issues no event at all — no download, no delete,
no report, no filesystem action — for any recording, and hence none for a
whole recording sequence. -/
theorem C10_both_flags_no_ops (w : World) (dd : String) (cam : Camera)
    (rec : Recording) (recs : List Recording) :
    process_recording bothOnlyArgs w dd cam rec = [] ∧
    recs.flatMap (process_recording bothOnlyArgs w dd cam) = [] := by
  constructor
  · simp [process_recording, bothOnlyArgs]
  · induction recs with
    | nil => rfl
    | cons r rs ih =>
      simp only [List.flatMap_cons, ih]
      simp [process_recording, bothOnlyArgs]

end Jennov
